import Mathlib

/-
Verification of the identifier-acceptance example program.

The program consists of three C translation units:
  - example.c: the validator `is_acceptable_id`, a helper `some_function`,
    and the command-line entry point `main`;
  - otherfile.c: the "production" collaborators `database_id_exists` and
    `function_somewhere_else`, both of which print a diagnostic and abort;
  - test-example.c: a test harness that includes example.c, overrides
    `database_id_exists` with a stub returning false, and asserts the
    validator on boundary values.

The existence check is resolved at link time in C; here it is modelled as an
explicit function parameter `db : Nat -> Bool` (the identifier is an unsigned
32-bit integer, modelled as a natural number below 2^32).  A traced variant
records the observable events of a run so that evaluation order and
side-effect freedom can be stated.
-/

/-- Observable events of a run: a call to the existence check (with its
result), the evaluation of the range comparison, calls to the two functions
that must never run, and output to stdout/stderr. -/
inductive Event where
  | dbCall (id : Nat) (result : Bool)
  | rangeCmp (id : Nat)
  | someFunctionCall (arg : Int)
  | functionSomewhereElseCall (arg : Int)
  | printOut (s : String)
  | printErr (s : String)
deriving DecidableEq

/-- `static bool is_acceptable_id(unsigned int id)` from example.c:
`if (database_id_exists(id)) return 0; return id > 1000 && id < 10000;`.
The linked-in existence check is the parameter `db`. -/
def is_acceptable_id (db : Nat → Bool) (id : Nat) : Bool :=
  if db id then false
  else decide (1000 < id) && decide (id < 10000)

/-- Traced run of `is_acceptable_id`: the existence check is called first;
the range comparison is only evaluated when the check returns false. -/
def is_acceptable_id_run (db : Nat → Bool) (id : Nat) : Bool × List Event :=
  let e := db id
  if e then (false, [Event.dbCall id e])
  else (decide (1000 < id) && decide (id < 10000),
        [Event.dbCall id e, Event.rangeCmp id])

/-- The whitespace characters skipped by C `atoi` (isspace in the "C" locale). -/
def isAsciiSpace (c : Char) : Bool :=
  c = ' ' || c = '\t' || c = '\n' || c = '\r' || c.toNat = 11 || c.toNat = 12

/-- Value of the leading decimal-digit run of a character list. -/
def digitsValue (cs : List Char) : Nat :=
  (cs.takeWhile Char.isDigit).foldl (fun acc c => acc * 10 + (c.toNat - 48)) 0

/-- C `atoi`: skip leading whitespace, read an optional sign, then the
longest run of decimal digits (zero if there are none).  The result is the
mathematical value; C leaves out-of-`int`-range results undefined. -/
def atoi (s : String) : Int :=
  match s.toList.dropWhile isAsciiSpace with
  | '-' :: rest => -(Int.ofNat (digitsValue rest))
  | '+' :: rest => Int.ofNat (digitsValue rest)
  | cs => Int.ofNat (digitsValue cs)

/-- Conversion of a C `int` value to `unsigned int` (reduction modulo 2^32),
as happens when `main` passes the parsed `int id` to `is_acceptable_id`. -/
def intToUInt (v : Int) : Nat := (v % (2 ^ 32 : Int)).toNat

/-- GNU `basename`: the component after the last slash. -/
def basename (s : String) : String := ((s.splitOn ("/")).reverse).headD s

/-- Outcome of a process run: exit code and the lines written to the two
output streams. -/
structure RunResult where
  exitCode : Nat
  stdoutLines : List String
  stderrLines : List String
deriving DecidableEq

/-- `main` from example.c.  With no identifier argument it prints a usage
line naming the program to stderr and returns 1; otherwise it parses the
first argument with `atoi`, evaluates the validator and prints the result
(`%d` of the C bool, so 0 or 1) to stdout, returning 0. -/
def cMain (db : Nat → Bool) (progName : String) (args : List String) : RunResult :=
  match args with
  | [] =>
      { exitCode := 1
        stdoutLines := []
        stderrLines := ["Usage: " ++ basename progName ++ " <id>"] }
  | a :: _ =>
      let id : Int := atoi a
      let acc : Bool := is_acceptable_id db (intToUInt id)
      { exitCode := 0
        stdoutLines := ["ID is acceptable: " ++ (if acc then "1" else "0")]
        stderrLines := [] }

/-- Event trace of a run of `main` from example.c. -/
def cMainTrace (db : Nat → Bool) (progName : String) (args : List String) :
    List Event :=
  match args with
  | [] => [Event.printErr ("Usage: " ++ basename progName ++ " <id>")]
  | a :: _ =>
      let r := is_acceptable_id_run db (intToUInt (atoi a))
      r.snd ++ [Event.printOut ("ID is acceptable: " ++ (if r.fst then "1" else "0"))]

/-- The test harness's stub `database_id_exists` from test-example.c:
returns false for every identifier. -/
def database_id_exists_test (_id : Nat) : Bool := false

/-- The identifiers `test_id` in test-example.c passes to the validator,
in call order. -/
def test_id_ids : List Nat := [10, 100, 1000, 5000, 3000]

/-- The conjunction of the assertions in `test_id`. -/
def test_id_asserts : Bool :=
  (!(is_acceptable_id database_id_exists_test 10)) &&
  (!(is_acceptable_id database_id_exists_test 100)) &&
  (!(is_acceptable_id database_id_exists_test 1000)) &&
  (is_acceptable_id database_id_exists_test 5000) &&
  (is_acceptable_id database_id_exists_test 3000)

/-- Event trace of the test harness's `main` (it only runs `test_id`,
which calls the validator on `test_id_ids` with the stub). -/
def testMainTrace : List Event :=
  (test_id_ids.map
    (fun i => (is_acceptable_id_run database_id_exists_test i).snd)).flatten

/-- Outcome of calling one of the production collaborators in otherfile.c:
either it returns a value (after printing some lines) or it aborts the
process (after printing some lines). -/
inductive CallOutcome (α : Type) where
  | returns (val : α) (printed : List String)
  | aborts (printed : List String)
deriving DecidableEq

/-- The lines printed before the outcome. -/
def CallOutcome.printedLines {α : Type} : CallOutcome α → List String
  | CallOutcome.returns _ p => p
  | CallOutcome.aborts p => p

/-- Whether the call aborted the process instead of returning. -/
def CallOutcome.isAborts {α : Type} : CallOutcome α → Bool
  | CallOutcome.returns _ _ => false
  | CallOutcome.aborts _ => true

/-- `function_somewhere_else` from otherfile.c: prints a diagnostic line and
aborts; the trailing `return` is unreachable. -/
def function_somewhere_else (_argument : Int) : CallOutcome Unit :=
  CallOutcome.aborts ["..... function_somewhere_else wasn't supposed to be called"]

/-- The production `database_id_exists` from otherfile.c: prints a diagnostic
line and aborts; the trailing `return true` is unreachable. -/
def database_id_exists_production (_id : Nat) : CallOutcome Bool :=
  CallOutcome.aborts ["..... database_id_exists wasn't supposed to be called"]

/-- Events that are calls to `some_function` or `function_somewhere_else`. -/
def Event.isForbiddenCall : Event → Bool
  | Event.someFunctionCall _ => true
  | Event.functionSomewhereElseCall _ => true
  | _ => false

/-- Events that write output or otherwise affect the program state. -/
def Event.isOutput : Event → Bool
  | Event.printOut _ => true
  | Event.printErr _ => true
  | _ => false

/-- C1: when the existence check reports false for `id`, the validator
accepts `id` iff 1000 < id < 10000 (both bounds exclusive). -/
theorem is_acceptable_id_range_iff_when_not_exists (db : Nat → Bool) (id : Nat)
    (hid : id < 2 ^ 32) (h : db id = false) :
    is_acceptable_id db id = true ↔ (1000 < id ∧ id < 10000) := by
  simp [is_acceptable_id, h]

/-- Witness for C1 at id = 3000 with the always-false check. -/
theorem is_acceptable_id_range_iff_when_not_exists_witness :
    is_acceptable_id (fun _ => false) 3000 = true ↔ (1000 < 3000 ∧ 3000 < 10000) :=
  is_acceptable_id_range_iff_when_not_exists (fun _ => false) 3000
    (by decide) (by rfl)

/-- C2: when the existence check reports true the validator rejects,
whatever the range; and on every call the existence check is the first
evaluated operation, before any range comparison. -/
theorem is_acceptable_id_exists_rejects_and_db_first (db : Nat → Bool) (id : Nat) :
    (db id = true → is_acceptable_id db id = false) ∧
    (is_acceptable_id_run db id).snd.head? = some (Event.dbCall id (db id)) := by
  constructor
  · intro h
    simp [is_acceptable_id, h]
  · cases hdb : db id <;> simp [is_acceptable_id_run, hdb]

/-- Witness for C2 with an always-true check at id = 5000 (in range). -/
theorem is_acceptable_id_exists_rejects_and_db_first_witness :
    is_acceptable_id (fun _ => true) 5000 = false ∧
    (is_acceptable_id_run (fun _ => true) 5000).snd.head? =
      some (Event.dbCall 5000 true) :=
  ⟨(is_acceptable_id_exists_rejects_and_db_first (fun _ => true) 5000).1 rfl,
   (is_acceptable_id_exists_rejects_and_db_first (fun _ => true) 5000).2⟩

/-- C3: identifiers at most 1000 or at least 10000 are rejected for every
existence check, hence for both of its possible results. -/
theorem is_acceptable_id_out_of_range_false (db : Nat → Bool) (id : Nat)
    (hid : id < 2 ^ 32) (h : id ≤ 1000 ∨ 10000 ≤ id) :
    is_acceptable_id db id = false := by
  cases hdb : db id <;> simp [is_acceptable_id, hdb] <;> omega

/-- Witness for C3 at the boundary id = 10000 with the always-false check. -/
theorem is_acceptable_id_out_of_range_false_witness :
    is_acceptable_id (fun _ => false) 10000 = false :=
  is_acceptable_id_out_of_range_false (fun _ => false) 10000
    (by decide) (Or.inr (by decide))

/-- C4: with the test harness's fixed-false stub the validator rejects 10,
100, 1000 and 10000 and accepts 3000, 5000 and 9999. -/
theorem test_stub_boundary_values :
    is_acceptable_id database_id_exists_test 10 = false ∧
    is_acceptable_id database_id_exists_test 100 = false ∧
    is_acceptable_id database_id_exists_test 1000 = false ∧
    is_acceptable_id database_id_exists_test 10000 = false ∧
    is_acceptable_id database_id_exists_test 3000 = true ∧
    is_acceptable_id database_id_exists_test 5000 = true ∧
    is_acceptable_id database_id_exists_test 9999 = true := by
  decide

/-- C5: with no identifier argument `main` exits 1 and prints a usage line
naming the program to stderr; with at least one argument it always exits 0
and prints exactly "ID is acceptable: 0" or "ID is acceptable: 1" to stdout. -/
theorem cMain_exit_codes (db : Nat → Bool) (progName : String)
    (args : List String) :
    (args = [] → cMain db progName args =
      { exitCode := 1
        stdoutLines := []
        stderrLines := ["Usage: " ++ basename progName ++ " <id>"] }) ∧
    (args ≠ [] → (cMain db progName args).exitCode = 0 ∧
      (cMain db progName args).stderrLines = [] ∧
      ((cMain db progName args).stdoutLines = ["ID is acceptable: 0"] ∨
       (cMain db progName args).stdoutLines = ["ID is acceptable: 1"])) := by
  constructor
  · intro h
    subst h
    rfl
  · intro h
    match args with
    | [] => exact absurd rfl h
    | a :: rest =>
        cases hacc : is_acceptable_id db (intToUInt (atoi a)) <;>
          simp [cMain, hacc]

/-- Witness for C5: the missing-argument and one-argument cases at a
concrete program name, argument "3000" and the always-false check. -/
theorem cMain_exit_codes_witness :
    cMain (fun _ => false) ("prog") [] =
      { exitCode := 1
        stdoutLines := []
        stderrLines := ["Usage: " ++ basename ("prog") ++ " <id>"] } ∧
    ((cMain (fun _ => false) ("prog") [("3000")]).exitCode = 0 ∧
     (cMain (fun _ => false) ("prog") [("3000")]).stderrLines = [] ∧
     ((cMain (fun _ => false) ("prog") [("3000")]).stdoutLines =
        ["ID is acceptable: 0"] ∨
      (cMain (fun _ => false) ("prog") [("3000")]).stdoutLines =
        ["ID is acceptable: 1"])) :=
  ⟨(cMain_exit_codes (fun _ => false) ("prog") []).1 rfl,
   (cMain_exit_codes (fun _ => false) ("prog") [("3000")]).2 (by simp)⟩

/-- C6: with a non-aborting existence check that reports false, `main` with
argument "3000" prints "ID is acceptable: 1" and exits 0, and `main` with
no argument exits 1 with a usage line on stderr. -/
theorem cMain_scenario_3000_and_noargs (db : Nat → Bool) (progName : String)
    (hdb : ∀ i, db i = false) :
    cMain db progName [("3000")] =
      { exitCode := 0
        stdoutLines := ["ID is acceptable: 1"]
        stderrLines := [] } ∧
    (cMain db progName []).exitCode = 1 ∧
    (cMain db progName []).stderrLines =
      ["Usage: " ++ basename progName ++ " <id>"] := by
  refine ⟨?_, rfl, rfl⟩
  have h3 : intToUInt (atoi ("3000")) = 3000 := by decide
  simp [cMain, h3, is_acceptable_id, hdb]

/-- Witness for C6 with the fixed-false stub and a concrete program name. -/
theorem cMain_scenario_3000_and_noargs_witness :
    cMain (fun _ => false) ("prog") [("3000")] =
      { exitCode := 0
        stdoutLines := ["ID is acceptable: 1"]
        stderrLines := [] } ∧
    (cMain (fun _ => false) ("prog") []).exitCode = 1 ∧
    (cMain (fun _ => false) ("prog") []).stderrLines =
      ["Usage: " ++ basename ("prog") ++ " <id>"] :=
  cMain_scenario_3000_and_noargs (fun _ => false) ("prog") (fun _ => rfl)

/-- C7: each production collaborator aborts the process after printing a
single diagnostic line and never returns a value to its caller. -/
theorem production_collaborators_abort (argument : Int) (id : Nat) :
    (function_somewhere_else argument).isAborts = true ∧
    (function_somewhere_else argument).printedLines.length = 1 ∧
    (database_id_exists_production id).isAborts = true ∧
    (database_id_exists_production id).printedLines.length = 1 :=
  ⟨rfl, rfl, rfl, rfl⟩

/-- C8: no run of `main` from example.c, and no run of the test harness,
ever calls `some_function` or `function_somewhere_else`. -/
theorem no_forbidden_calls_in_specified_paths (db : Nat → Bool)
    (progName : String) (args : List String) :
    (cMainTrace db progName args).filter Event.isForbiddenCall = [] ∧
    testMainTrace.filter Event.isForbiddenCall = [] := by
  constructor
  · match args with
    | [] => rfl
    | a :: rest =>
        cases hdb : db (intToUInt (atoi a)) <;>
          simp [cMainTrace, is_acceptable_id_run, hdb, Event.isForbiddenCall]
  · rfl

/-- C9: the validator is pure and deterministic: two calls with the same
identifier and the same existence check give the same boolean, the traced
run computes exactly the pure predicate, and its trace contains no output
or state-changing event. -/
theorem is_acceptable_id_pure_deterministic (db : Nat → Bool) (id id2 : Nat)
    (h : id = id2) :
    (is_acceptable_id_run db id).fst = (is_acceptable_id_run db id2).fst ∧
    (is_acceptable_id_run db id).fst = is_acceptable_id db id ∧
    (is_acceptable_id_run db id).snd.filter Event.isOutput = [] := by
  subst h
  refine ⟨rfl, ?_, ?_⟩ <;>
    cases hdb : db id <;>
      simp [is_acceptable_id_run, is_acceptable_id, hdb, Event.isOutput]

/-- Witness for C9 at id = 3000 with the always-false check. -/
theorem is_acceptable_id_pure_deterministic_witness :
    (is_acceptable_id_run (fun _ => false) 3000).fst =
      (is_acceptable_id_run (fun _ => false) 3000).fst ∧
    (is_acceptable_id_run (fun _ => false) 3000).fst =
      is_acceptable_id (fun _ => false) 3000 ∧
    (is_acceptable_id_run (fun _ => false) 3000).snd.filter Event.isOutput = [] :=
  is_acceptable_id_pure_deterministic (fun _ => false) 3000 3000 rfl

/-- C10: `main` parses the argument with `atoi` into a signed int and the
unsigned parameter receives it modulo 2^32; when the parsed value is
negative (hence at least -2^31, `atoi` being defined only for `int`-range
results), the identifier seen by the validator is at least 2^31, outside
(1000, 10000), so with an existence check reporting false the program
prints "ID is acceptable: 0" and exits 0. -/
theorem cMain_negative_argument_rejected (db : Nat → Bool) (progName : String)
    (s : String) (rest : List String) (hdb : ∀ i, db i = false)
    (hlo : -(2 ^ 31) ≤ atoi s) (hneg : atoi s < 0) :
    2 ^ 31 ≤ intToUInt (atoi s) ∧ intToUInt (atoi s) < 2 ^ 32 ∧
    ¬(1000 < intToUInt (atoi s) ∧ intToUInt (atoi s) < 10000) ∧
    cMain db progName (s :: rest) =
      { exitCode := 0
        stdoutLines := ["ID is acceptable: 0"]
        stderrLines := [] } := by
  have hbound : 2 ^ 31 ≤ intToUInt (atoi s) ∧ intToUInt (atoi s) < 2 ^ 32 := by
    unfold intToUInt
    omega
  refine ⟨hbound.1, hbound.2, by omega, ?_⟩
  have hacc : is_acceptable_id db (intToUInt (atoi s)) = false := by
    simp [is_acceptable_id, hdb]
    omega
  simp [cMain, hacc]

/-- Witness for C10 at the argument "-5" with the always-false check. -/
theorem cMain_negative_argument_rejected_witness :
    2 ^ 31 ≤ intToUInt (atoi ("-5")) ∧ intToUInt (atoi ("-5")) < 2 ^ 32 ∧
    ¬(1000 < intToUInt (atoi ("-5")) ∧ intToUInt (atoi ("-5")) < 10000) ∧
    cMain (fun _ => false) ("prog") [("-5")] =
      { exitCode := 0
        stdoutLines := ["ID is acceptable: 0"]
        stderrLines := [] } :=
  cMain_negative_argument_rejected (fun _ => false) ("prog") ("-5") []
    (fun _ => rfl) (by decide) (by decide)
